import Mathlib

/-!
Shallow embedding of the checkout/inventory core of `src/code.py` (a Streamlit
point-of-sale application backed by SQLite).

Conventions of the embedding:
* A table row becomes a structure; the database becomes `DBState`, holding the
  `products`, `customers` and `transactions` tables as lists of rows.  The JSON
  `data` blob columns duplicate the typed columns and are not modelled.
* Each `conn.commit()` in the source is one atomic unit.  `pos_screen`'s
  "Complete" handler issues several such commits in sequence; we model that
  handler as the list of its commits (`checkoutCommits`) folded over the state
  (`runCommits`), so that prefixes of the list are exactly the states a storage
  failure can leave behind.
* Python `float` money arithmetic is modelled by exact rationals (`Rat`); the
  specification states exact decimal expectations, and every claim treated here
  concerns the algebraic structure of the computation, not IEEE rounding.
* Python `int()` (truncation toward zero) is `pyInt`.
* `str(datetime.now().timestamp())` is modelled by the numeric timestamp itself
  (`now : Rat`); `str` is injective on equal clock readings, which is all the
  identifier claims need.
-/

/-- Row of the `products` table (the columns the checkout core reads). -/
structure Product where
  id : String
  name : String
  price : Rat
  inventory : Int
  category : String
deriving DecidableEq

/-- Row of the `customers` table. -/
structure Customer where
  id : String
  name : String
  email : String
  phone : String
  loyalty_points : Int
  total_spend : Rat
  order_count : Int
deriving DecidableEq

/-- A cart entry: `{**product, 'cartQuantity': n}` in `pos_screen`, i.e. a full
copy of the product row (price and inventory as snapshotted at add time) plus
the requested quantity. -/
structure CartItem where
  id : String
  name : String
  price : Rat
  inventory : Int
  category : String
  cartQuantity : Int
deriving DecidableEq

/-- Row of the `transaction_items` table. -/
structure TransactionItem where
  product_id : String
  product_name : String
  price : Rat
  quantity : Int
deriving DecidableEq

/-- Row of the `transactions` table.  The source sets
`id = str(datetime.now().timestamp())`; we store the numeric clock reading. -/
structure Txn where
  id : Rat
  customer_id : Option String
  subtotal : Rat
  discount : Rat
  tax : Rat
  tip : Rat
  total : Rat
  payment_method : String
  items : List TransactionItem
  timestamp : Rat
deriving DecidableEq

/-- The singleton configuration record (fields the checkout core reads). -/
structure Config where
  taxRate : Rat
  currency : String
  enableInventory : Bool
  enableCustomers : Bool
  enableLoyalty : Bool
  loyaltyRate : Rat
  lowStockThreshold : Int
deriving DecidableEq

/-- The durable state: the three tables touched by checkout. -/
structure DBState where
  products : List Product
  customers : List Customer
  transactions : List Txn
deriving DecidableEq

/-- `ProductDB.update_inventory`:
`UPDATE products SET inventory = inventory + ? WHERE id = ?` — a relative
adjustment with no lower bound. -/
def ProductDB.update_inventory (s : DBState) (product_id : String)
    (quantity_change : Int) : DBState :=
  { s with products := s.products.map fun p =>
      if p.id = product_id then { p with inventory := p.inventory + quantity_change }
      else p }

/-- `CustomerDB.update_stats`: adds `total_spent` to `total_spend`, adds
`loyalty_points`, and increments `order_count`, for the row with the given id. -/
def CustomerDB.update_stats (s : DBState) (customer_id : String)
    (total_spent : Rat) (loyalty_points : Int) : DBState :=
  { s with customers := s.customers.map fun c =>
      if c.id = customer_id then
        { c with total_spend := c.total_spend + total_spent,
                 loyalty_points := c.loyalty_points + loyalty_points,
                 order_count := c.order_count + 1 }
      else c }

/-- `CustomerDB.update`:
`UPDATE customers SET name, email, phone, loyalty_points, total_spend,
order_count, data WHERE id = ?` — writes every column, the three aggregate
fields included, from the supplied record. -/
def CustomerDB.update (s : DBState) (customer_data : Customer) : DBState :=
  { s with customers := s.customers.map fun c =>
      if c.id = customer_data.id then
        { c with name := customer_data.name, email := customer_data.email,
                 phone := customer_data.phone,
                 loyalty_points := customer_data.loyalty_points,
                 total_spend := customer_data.total_spend,
                 order_count := customer_data.order_count }
      else c }

/-- `TransactionDB.add`: inserts the transaction row and its item rows, then
commits once; one atomic unit. -/
def TransactionDB.add (s : DBState) (t : Txn) : DBState :=
  { s with transactions := s.transactions ++ [t] }

/-- Python `int()` applied to a number: truncation toward zero. -/
def pyInt (q : Rat) : Int := if 0 ≤ q then q.floor else q.ceil

/-- `calculate_loyalty_points(total, rate) = int(total * rate)`. -/
def calculate_loyalty_points (total : Rat) (rate : Rat) : Int := pyInt (total * rate)

/-- The totals breakdown computed in `pos_screen` (and by the spec's Pricing
Engine). -/
structure Totals where
  subtotal : Rat
  discount : Rat
  taxable : Rat
  tax : Rat
  total : Rat
deriving DecidableEq

/-- `subtotal = sum(item['price'] * item['cartQuantity'] for item in cart)`:
Python's `sum` is a left fold starting from `0`. -/
def cartSubtotal (cart : List CartItem) : Rat :=
  cart.foldl (fun acc item => acc + item.price * (item.cartQuantity : Rat)) 0

/-- The totals block of `pos_screen` (code.py lines 1056-1065):
`discount = subtotal * (discount_pct / 100)`, `taxable = subtotal - discount`,
`tax = taxable * (taxRate / 100)`, `total = taxable + tax + tip`.  No value is
rounded; `:.2f` rounding happens only in the rendered strings. -/
def posTotals (cart : List CartItem) (discount_pct : Rat) (taxRate : Rat)
    (tip : Rat) : Totals :=
  let subtotal := cartSubtotal cart
  let discount := subtotal * (discount_pct / 100)
  let taxable := subtotal - discount
  let tax := taxable * (taxRate / 100)
  { subtotal := subtotal, discount := discount, taxable := taxable, tax := tax,
    total := taxable + tax + tip }

/-- The Pricing Engine exactly as the specification words it (spec §4.3), kept
separate from `posTotals` so the two can be compared for claim C6:
`subtotal = Σ(unitPriceSnapshot × quantity)`,
`discount = subtotal × discountPercent / 100`,
`taxableAmount = subtotal − discount`,
`tax = taxableAmount × taxRatePercent / 100`,
`total = taxableAmount + tax + tip`. -/
def specComputeTotals (lines : List CartItem) (discountPercent : Rat)
    (taxRatePercent : Rat) (tip : Rat) : Totals :=
  let subtotal := (lines.map fun l => l.price * (l.cartQuantity : Rat)).sum
  let discount := subtotal * discountPercent / 100
  let taxableAmount := subtotal - discount
  let tax := taxableAmount * taxRatePercent / 100
  { subtotal := subtotal, discount := discount, taxable := taxableAmount,
    tax := tax, total := taxableAmount + tax + tip }

/-- The item rows `TransactionDB.add` inserts for a transaction: for each cart
item, `(product_id, product_name, price, quantity)`. -/
def mkTxnItems (cart : List CartItem) : List TransactionItem :=
  cart.map fun item =>
    { product_id := item.id, product_name := item.name, price := item.price,
      quantity := item.cartQuantity }

/-- The transaction dict built in the "Complete" handler.  Its `id` and
`timestamp` both come from `datetime.now()`; monetary fields are stored exactly
as computed, unrounded. -/
def mkTxn (cart : List CartItem) (t : Totals) (tip : Rat)
    (payment_method : String) (customer_id : Option String) (now : Rat) : Txn :=
  { id := now, customer_id := customer_id, subtotal := t.subtotal,
    discount := t.discount, tax := t.tax, tip := tip, total := t.total,
    payment_method := payment_method, items := mkTxnItems cart,
    timestamp := now }

/-- `next(c for c in customers if c['name'] == selected_customer)`: the first
stored customer with the selected name. -/
def findCustomerByName (customers : List Customer) (nm : String) :
    Option Customer :=
  customers.find? fun c => c.name == nm

/-- Runs a list of commits (atomic units) in order. -/
def runCommits (s : DBState) (l : List (DBState → DBState)) : DBState :=
  l.foldl (fun st f => f st) s

/-- The inventory commits the "Complete" handler issues after saving the
transaction: one `ProductDB.update_inventory(item.id, -quantity)` commit per
cart item, and none when inventory tracking is disabled. -/
def invCommits (cfg : Config) (cart : List CartItem) :
    List (DBState → DBState) :=
  if cfg.enableInventory then
    cart.map fun item => fun st =>
      ProductDB.update_inventory st item.id (-item.cartQuantity)
  else []

/-- The commits of one press of "Complete", in source order: first (when a
stored customer is selected) `CustomerDB.update_stats`, then
`TransactionDB.add`, then the per-item inventory adjustments.  Each element is
one `conn.commit()`. -/
def checkoutCommits (found : Option Customer) (cart : List CartItem)
    (cfg : Config) (discount_pct : Rat) (tip : Rat) (payment_method : String)
    (now : Rat) : List (DBState → DBState) :=
  let t := posTotals cart discount_pct cfg.taxRate tip
  (match found with
   | some customer =>
       [fun st => CustomerDB.update_stats st customer.id t.total
          (if cfg.enableLoyalty then
             calculate_loyalty_points t.total cfg.loyaltyRate
           else 0)]
   | none => []) ++
  [fun st =>
     TransactionDB.add st
       (mkTxn cart t tip payment_method (found.map Customer.id) now)] ++
  invCommits cfg cart

/-- Resolves the selected customer: `Guest` (or customers disabled) means no
customer; a selected name is looked up in the stored customers, and a failed
lookup makes `next(...)` raise `StopIteration`, aborting the handler before any
commit (outer `none`). -/
def selectedCustomer (s : DBState) (cfg : Config) (sel : Option String) :
    Option (Option Customer) :=
  match sel with
  | none => some none
  | some nm =>
      if cfg.enableCustomers then
        match findCustomerByName s.customers nm with
        | none => none
        | some c => some (some c)
      else some none

/-- The "Complete" button handler of `pos_screen` (code.py lines 1083-1117):
resolve the customer, then run the commit sequence.  There is no stock
validation, no error result, and no rollback across the commits. -/
def pos_complete (s : DBState) (cart : List CartItem) (cfg : Config)
    (sel : Option String) (discount_pct : Rat) (tip : Rat)
    (payment_method : String) (now : Rat) : Option DBState :=
  (selectedCustomer s cfg sel).map fun found =>
    runCommits s (checkoutCommits found cart cfg discount_pct tip payment_method now)

/-- The fresh cart line `{**product, 'cartQuantity': 1}`. -/
def newCartLine (p : Product) : CartItem :=
  { id := p.id, name := p.name, price := p.price, inventory := p.inventory,
    category := p.category, cartQuantity := 1 }

/-- The grid-view "Add" handler (code.py lines 983-995): if a line for the
product exists, increment its quantity only while it is below
`stock if enableInventory else 999` (otherwise show "Not enough stock!" and
leave the cart alone); else append a fresh line with quantity 1.  `cart_map`
keys lines by product id, so the update hits the line with the matching id. -/
def cartAddGrid (cfg : Config) (cart : List CartItem) (p : Product) :
    List CartItem :=
  if cart.any fun item => item.id == p.id then
    let max_stock : Int := if cfg.enableInventory then p.inventory else 999
    cart.map fun item =>
      if item.id = p.id then
        (if item.cartQuantity < max_stock then
           { item with cartQuantity := item.cartQuantity + 1 }
         else item)
      else item
  else cart ++ [newCartLine p]

/-- The list-view "Add" handler (code.py lines 1008-1013): if a line exists its
quantity is incremented unconditionally — no stock comparison at all; else a
fresh line with quantity 1 is appended. -/
def cartAddList (cart : List CartItem) (p : Product) : List CartItem :=
  if cart.any fun item => item.id == p.id then
    cart.map fun item =>
      if item.id = p.id then { item with cartQuantity := item.cartQuantity + 1 }
      else item
  else cart ++ [newCartLine p]

/-- Quantity of the (first) cart line for a product id, 0 when absent. -/
def qtyOf (cart : List CartItem) (pid : String) : Int :=
  ((cart.find? fun item => item.id == pid).map CartItem.cartQuantity).getD 0

/-- Round-half-up to 2 decimal places, as the specification defines rounding of
monetary outputs. -/
def roundHalfUp2 (q : Rat) : Rat :=
  (((q * 100 + 1 / 2 : Rat).floor : Int) : Rat) / 100

/-- The `customers_screen` edit-form save (code.py lines 1238-1267): name,
email and phone come from the text inputs; `loyalty_points` and `total_spend`
come from the form's disabled inputs and `order_count` is copied directly — all
three from `st.session_state.edit_customer`, the record as it was when the
Edit button was clicked — and the whole record is written back with
`CustomerDB.update`. -/
def customersSave (s : DBState) (edit_cust : Customer)
    (nm : String) (em : String) (ph : String) : DBState :=
  CustomerDB.update s { edit_cust with name := nm, email := em, phone := ph }

/-! Helper lemmas about the embedding. -/

/-- Mathlib's floor on rationals is the embedded `Rat.floor`. -/
theorem rat_floor_eq_intFloor (q : Rat) : q.floor = ⌊q⌋ := rfl

theorem runCommits_append (s : DBState) (l1 l2 : List (DBState → DBState)) :
    runCommits s (l1 ++ l2) = runCommits (runCommits s l1) l2 := by
  simp [runCommits, List.foldl_append]

theorem invRun_aux (l : List CartItem) (s : DBState) :
    runCommits s (l.map fun item => fun st =>
        ProductDB.update_inventory st item.id (-item.cartQuantity))
      = { s with products := (runCommits s (l.map fun item => fun st =>
            ProductDB.update_inventory st item.id (-item.cartQuantity))).products } := by
  induction l generalizing s with
  | nil => rfl
  | cons a l ih =>
      simp only [List.map_cons, runCommits, List.foldl_cons] at ih ⊢
      rw [ih]
      rfl

theorem invRun_customers (cfg : Config) (cart : List CartItem) (s : DBState) :
    (runCommits s (invCommits cfg cart)).customers = s.customers := by
  unfold invCommits
  split
  · rw [invRun_aux]
  · rfl

theorem invRun_transactions (cfg : Config) (cart : List CartItem) (s : DBState) :
    (runCommits s (invCommits cfg cart)).transactions = s.transactions := by
  unfold invCommits
  split
  · rw [invRun_aux]
  · rfl

theorem any_eq_isSome_find? (cart : List CartItem) (pid : String) :
    (cart.any fun item => item.id == pid)
      = (cart.find? fun item => item.id == pid).isSome := by
  induction cart with
  | nil => rfl
  | cons a l ih =>
      by_cases h : a.id = pid
      · simp [List.any_cons, List.find?_cons_of_pos, h]
      · rw [List.any_cons, List.find?_cons_of_neg _ (by simp [h]), ← ih]
        simp [h]

/-- Claim C1: checkout of a non-empty cart with inventory tracking enabled whose
line requests more than the current stock (product A, stock 2, requested 3) must
return InsufficientStock naming the product and leave stock, the order table and
customer stats unchanged.  The code performs no stock validation at checkout: the
Complete handler commits one order and drives the stock to -1, refuting the
claim at this input. -/
theorem checkout_commits_despite_insufficient_stock :
    (pos_complete ⟨[⟨"A", "A", 10, 2, "General"⟩], [], []⟩
        [⟨"A", "A", 10, 2, "General", 3⟩]
        ⟨8, "$", true, false, false, 1, 5⟩ none 0 0 "Cash" 7).map
      (fun s => (s.transactions.length, s.products.map Product.inventory, s.customers))
      = some (1, [(-1 : Int)], ([] : List Customer)) := by
  norm_num [pos_complete, selectedCustomer, runCommits, checkoutCommits, invCommits,
    ProductDB.update_inventory, TransactionDB.add, mkTxn, mkTxnItems]

/-- Claim C3: stockLevel must stay nonnegative whenever inventory is tracked.
The code has no floor on the relative UPDATE: checking out a cart line of
quantity 3 against stock 2 records inventory -1, which is negative. -/
theorem checkout_drives_stock_negative :
    ((pos_complete ⟨[⟨"B", "B", 5, 2, "General"⟩], [], []⟩
        [⟨"B", "B", 5, 2, "General", 3⟩]
        ⟨0, "$", true, false, false, 1, 5⟩ none 0 0 "Cash" 11).map
      (fun s => s.products.map Product.inventory) = some [(-1 : Int)])
    ∧ (-1 : Int) < 0 := by
  refine ⟨?_, by norm_num⟩
  norm_num [pos_complete, selectedCustomer, runCommits, checkoutCommits, invCommits,
    ProductDB.update_inventory, TransactionDB.add, mkTxn, mkTxnItems]

/-- Claim C4: with stock K = 1 and N = 2 checkouts each requesting one unit,
exactly one is required to succeed and the final stock must be exactly 0.  Both
carts are built while stock is 1; running the two Complete handlers one after
the other (a legal serialization of the concurrent scenario) commits two orders
and leaves stock -1, refuting the claim. -/
theorem concurrent_last_unit_both_succeed :
    ((pos_complete ⟨[⟨"A", "A", 10, 1, "General"⟩], [], []⟩
        [⟨"A", "A", 10, 1, "General", 1⟩]
        ⟨0, "$", true, false, false, 1, 5⟩ none 0 0 "Cash" 21).bind
      (fun s1 => pos_complete s1 [⟨"A", "A", 10, 1, "General", 1⟩]
        ⟨0, "$", true, false, false, 1, 5⟩ none 0 0 "Cash" 22)).map
      (fun s => (s.transactions.length, s.products.map Product.inventory))
      = some (2, [(-1 : Int)]) := by
  norm_num [pos_complete, selectedCustomer, runCommits, checkoutCommits, invCommits,
    ProductDB.update_inventory, TransactionDB.add, mkTxn, mkTxnItems]

/-- Claim C5: order identifiers must be globally unique and not derived from
wall-clock time.  The code uses str(datetime.now().timestamp()) as the order id:
two checkouts committed at the same clock reading (here 55) both store id 55,
so identifiers of same-instant checkouts coincide. -/
theorem order_ids_collide_at_same_instant :
    ((pos_complete ⟨[], [], []⟩ [⟨"A", "A", 10, 0, "General", 1⟩]
        ⟨0, "$", false, false, false, 1, 5⟩ none 0 0 "Cash" 55).map
      (fun s => s.transactions.map Txn.id) = some [(55 : Rat)])
    ∧ ((pos_complete ⟨[], [], []⟩ [⟨"B", "B", 7, 0, "General", 2⟩]
        ⟨0, "$", false, false, false, 1, 5⟩ none 5 1 "Credit Card" 55).map
      (fun s => s.transactions.map Txn.id) = some [(55 : Rat)]) := by
  constructor <;>
    norm_num [pos_complete, selectedCustomer, runCommits, checkoutCommits, invCommits,
      ProductDB.update_inventory, TransactionDB.add, mkTxn, mkTxnItems]

theorem runCommits_cons (s : DBState) (f : DBState → DBState)
    (l : List (DBState → DBState)) : runCommits s (f :: l) = runCommits (f s) l := rfl

theorem rat_floor_eval (q : Rat) (z : Int) (h1 : (z : Rat) ≤ q)
    (h2 : q < (z : Rat) + 1) : q.floor = z := by
  rw [rat_floor_eq_intFloor]
  exact Int.floor_eq_iff.mpr ⟨h1, h2⟩

theorem checkout_customers (found : Option Customer) (cart : List CartItem)
    (cfg : Config) (dp tip : Rat) (pm : String) (now : Rat) (s : DBState) :
    (runCommits s (checkoutCommits found cart cfg dp tip pm now)).customers
      = (match found with
         | some c =>
             (CustomerDB.update_stats s c.id (posTotals cart dp cfg.taxRate tip).total
               (if cfg.enableLoyalty then
                  calculate_loyalty_points (posTotals cart dp cfg.taxRate tip).total
                    cfg.loyaltyRate
                else 0)).customers
         | none => s.customers) := by
  cases found with
  | none =>
      simp only [checkoutCommits, List.nil_append, List.singleton_append, runCommits_cons,
        invRun_customers]
      rfl
  | some c =>
      simp only [checkoutCommits, List.singleton_append, List.cons_append, List.nil_append,
        runCommits_cons, invRun_customers]
      rfl

theorem checkout_transactions (found : Option Customer) (cart : List CartItem)
    (cfg : Config) (dp tip : Rat) (pm : String) (now : Rat) (s : DBState) :
    (runCommits s (checkoutCommits found cart cfg dp tip pm now)).transactions
      = s.transactions
        ++ [mkTxn cart (posTotals cart dp cfg.taxRate tip) tip pm
              (found.map Customer.id) now] := by
  cases found with
  | none =>
      simp only [checkoutCommits, List.nil_append, List.singleton_append, runCommits_cons,
        invRun_transactions]
      rfl
  | some c =>
      simp only [checkoutCommits, List.singleton_append, List.cons_append, List.nil_append,
        runCommits_cons, invRun_transactions]
      rfl

theorem cartSubtotal_eq_sum (cart : List CartItem) :
    cartSubtotal cart = (cart.map fun item => item.price * (item.cartQuantity : Rat)).sum := by
  suffices h : ∀ (l : List CartItem) (a : Rat),
      l.foldl (fun acc item => acc + item.price * (item.cartQuantity : Rat)) a
        = a + (l.map fun item => item.price * (item.cartQuantity : Rat)).sum by
    simpa [cartSubtotal] using h cart 0
  intro l
  induction l with
  | nil => simp
  | cons b t ih => intro a; simp [List.foldl_cons, ih, add_assoc]

/-- Claim C2: the persistence of the order, its items, the stock decrements and
the customer stat update are required to be one atomic all-or-nothing unit with
PersistenceError and rollback on failure.  The code instead commits the customer
stat update in its own transaction before the order insert: running only the
first commit of the Complete handler (the state a storage failure at the order
insert leaves behind) shows Alice with totalSpend 19.44, 19 loyalty points and
orderCount 1 while the transactions table is still empty, refuting atomicity. -/
theorem customer_stats_committed_before_order :
    (pos_complete ⟨[⟨"A", "A", 10, 2, "General"⟩], [⟨"c1", "Alice", "", "", 0, 0, 0⟩], []⟩
        [⟨"A", "A", 10, 2, "General", 2⟩] ⟨8, "$", true, true, true, 1, 5⟩
        (some "Alice") 10 0 "Cash" 7
      = some (runCommits
          ⟨[⟨"A", "A", 10, 2, "General"⟩], [⟨"c1", "Alice", "", "", 0, 0, 0⟩], []⟩
          (checkoutCommits (some ⟨"c1", "Alice", "", "", 0, 0, 0⟩)
            [⟨"A", "A", 10, 2, "General", 2⟩] ⟨8, "$", true, true, true, 1, 5⟩
            10 0 "Cash" 7)))
    ∧ (runCommits
          ⟨[⟨"A", "A", 10, 2, "General"⟩], [⟨"c1", "Alice", "", "", 0, 0, 0⟩], []⟩
          ((checkoutCommits (some ⟨"c1", "Alice", "", "", 0, 0, 0⟩)
            [⟨"A", "A", 10, 2, "General", 2⟩] ⟨8, "$", true, true, true, 1, 5⟩
            10 0 "Cash" 7).take 1)).customers
        = [⟨"c1", "Alice", "", "", 19, 19.44, 1⟩]
    ∧ (runCommits
          ⟨[⟨"A", "A", 10, 2, "General"⟩], [⟨"c1", "Alice", "", "", 0, 0, 0⟩], []⟩
          ((checkoutCommits (some ⟨"c1", "Alice", "", "", 0, 0, 0⟩)
            [⟨"A", "A", 10, 2, "General", 2⟩] ⟨8, "$", true, true, true, 1, 5⟩
            10 0 "Cash" 7).take 1)).transactions
        = [] := by
  have hfl : ((486 / 25 : Rat)).floor = 19 :=
    rat_floor_eval _ 19 (by norm_num) (by norm_num)
  refine ⟨?_, ?_, ?_⟩ <;>
    norm_num [pos_complete, selectedCustomer, findCustomerByName, runCommits,
      checkoutCommits, invCommits, CustomerDB.update_stats, calculate_loyalty_points,
      pyInt, posTotals, cartSubtotal, ProductDB.update_inventory, TransactionDB.add,
      mkTxn, mkTxnItems, hfl]

/-- Claim C6: for every cart, discount percent, tax rate and tip, the totals
block of the POS screen computes exactly the Pricing Engine formulas of the
specification, and the worked scenario (two units of a 10.00 product, discount
10 percent, tax 8 percent, tip 0) yields subtotal 20.00, discount 2.00, taxable
18.00, tax 1.44, total 19.44. -/
theorem pricing_engine_matches_spec :
    (∀ (cart : List CartItem) (dp tr tip : Rat),
        posTotals cart dp tr tip = specComputeTotals cart dp tr tip)
    ∧ posTotals [⟨"A", "A", 10, 2, "General", 2⟩] 10 8 0
        = { subtotal := 20, discount := 2, taxable := 18, tax := 1.44, total := 19.44 } := by
  constructor
  · intro cart dp tr tip
    simp only [posTotals, specComputeTotals, cartSubtotal_eq_sum, Totals.mk.injEq,
      eq_self_iff_true, true_and]
    refine ⟨?_, ?_, ?_, ?_⟩ <;> ring
  · norm_num [posTotals, cartSubtotal]

/-- Claim C7 counterexample: the claim says every stored monetary field of a
committed order is rounded to 2 decimals half-up and that the stored total
equals round(subtotal - discount + tax + tip, 2).  Checking out three units of
a 3.33 product with a 10 percent discount stores discount 0.999 and total
8.991; neither equals its own 2-decimal rounding, so the stored fields are not
rounded and the rounded re-derivation differs from the stored total. -/
theorem stored_fields_not_rounded :
    ((pos_complete ⟨[⟨"P", "P", 3.33, 5, "General"⟩], [], []⟩
        [⟨"P", "P", 3.33, 5, "General", 3⟩]
        ⟨0, "$", true, false, false, 1, 5⟩ none 10 0 "Cash" 3).map
      (fun s => s.transactions.map fun t => (t.subtotal, t.discount, t.tax, t.tip, t.total))
      = some [((9.99 : Rat), (0.999 : Rat), (0 : Rat), (0 : Rat), (8.991 : Rat))])
    ∧ roundHalfUp2 0.999 ≠ (0.999 : Rat)
    ∧ roundHalfUp2 (9.99 - 0.999 + 0 + 0) ≠ (8.991 : Rat) := by
  refine ⟨?_, ?_, ?_⟩
  · norm_num [pos_complete, selectedCustomer, runCommits, checkoutCommits, invCommits,
      ProductDB.update_inventory, TransactionDB.add, mkTxn, mkTxnItems, posTotals,
      cartSubtotal]
  · rw [roundHalfUp2, show ((0.999 : Rat) * 100 + 1 / 2).floor = 100 from
      rat_floor_eval _ 100 (by norm_num) (by norm_num)]
    norm_num
  · rw [roundHalfUp2, show (((9.99 : Rat) - 0.999 + 0 + 0) * 100 + 1 / 2).floor = 899 from
      rat_floor_eval _ 899 (by norm_num) (by norm_num)]
    norm_num

/-- Claim C7 as amended: committed orders store the monetary fields exactly as
computed, with no rounding; the order appended by the Complete handler is
exactly the built transaction record, and its stored total equals
subtotal - discount + tax + tip exactly, so re-deriving the total from the
stored components reproduces it exactly (without any rounding step). -/
theorem stored_total_rederives_exactly :
    (∀ (s : DBState) (found : Option Customer) (cart : List CartItem) (cfg : Config)
        (dp tip : Rat) (pm : String) (now : Rat),
        (runCommits s (checkoutCommits found cart cfg dp tip pm now)).transactions
          = s.transactions
            ++ [mkTxn cart (posTotals cart dp cfg.taxRate tip) tip pm
                  (found.map Customer.id) now])
    ∧ (∀ (cart : List CartItem) (dp tr tip : Rat) (pm : String)
        (cid : Option String) (now : Rat),
        (mkTxn cart (posTotals cart dp tr tip) tip pm cid now).total
          = (mkTxn cart (posTotals cart dp tr tip) tip pm cid now).subtotal
            - (mkTxn cart (posTotals cart dp tr tip) tip pm cid now).discount
            + (mkTxn cart (posTotals cart dp tr tip) tip pm cid now).tax
            + (mkTxn cart (posTotals cart dp tr tip) tip pm cid now).tip) := by
  constructor
  · intro s found cart cfg dp tip pm now
    exact checkout_transactions found cart cfg dp tip pm now s
  · intro cart dp tr tip pm cid now
    simp only [mkTxn, posTotals]

/-- Claim C8: a successful checkout that references a stored customer while the
loyalty feature is enabled increases exactly that customer's loyaltyPoints by
floor(total x loyaltyRate) (Python int() truncation agrees with floor because
the product is nonnegative), alongside the totalSpend and orderCount updates. -/
theorem loyalty_points_increase_floor
    (s : DBState) (cart : List CartItem) (cfg : Config) (nm : String)
    (c : Customer) (dp tip : Rat) (pm : String) (now : Rat)
    (hc : cfg.enableCustomers = true) (hl : cfg.enableLoyalty = true)
    (hfind : findCustomerByName s.customers nm = some c)
    (hnn : 0 ≤ (posTotals cart dp cfg.taxRate tip).total * cfg.loyaltyRate) :
    ∃ s2, pos_complete s cart cfg (some nm) dp tip pm now = some s2
      ∧ s2.customers = s.customers.map fun d =>
          if d.id = c.id then
            { d with
                total_spend := d.total_spend + (posTotals cart dp cfg.taxRate tip).total,
                loyalty_points := d.loyalty_points
                  + ((posTotals cart dp cfg.taxRate tip).total * cfg.loyaltyRate).floor,
                order_count := d.order_count + 1 }
          else d := by
  refine ⟨runCommits s (checkoutCommits (some c) cart cfg dp tip pm now), ?_, ?_⟩
  · simp [pos_complete, selectedCustomer, hc, hfind]
  · rw [checkout_customers]
    simp only [CustomerDB.update_stats]
    apply List.map_congr_left
    intro d _
    by_cases hid : d.id = c.id
    · simp [hid, hl, calculate_loyalty_points, pyInt, hnn]
    · simp [hid]

/-- Concrete instance: customer Alice, order total 19.44, loyalty rate 1; the
points increase is floor(19.44) = 19. -/
theorem loyalty_points_increase_floor_witness :
    ((⟨8, "$", true, true, true, 1, 5⟩ : Config).enableCustomers = true)
    ∧ ((⟨8, "$", true, true, true, 1, 5⟩ : Config).enableLoyalty = true)
    ∧ findCustomerByName
        (⟨[⟨"A", "A", 10, 2, "General"⟩], [⟨"c1", "Alice", "", "", 0, 0, 0⟩], []⟩
          : DBState).customers "Alice" = some ⟨"c1", "Alice", "", "", 0, 0, 0⟩
    ∧ (0 ≤ (posTotals [⟨"A", "A", 10, 2, "General", 2⟩] 10
          (⟨8, "$", true, true, true, 1, 5⟩ : Config).taxRate 0).total
          * (⟨8, "$", true, true, true, 1, 5⟩ : Config).loyaltyRate)
    ∧ ((posTotals [⟨"A", "A", 10, 2, "General", 2⟩] 10
          (⟨8, "$", true, true, true, 1, 5⟩ : Config).taxRate 0).total
          * (⟨8, "$", true, true, true, 1, 5⟩ : Config).loyaltyRate).floor = 19
    ∧ (∃ s2, pos_complete
          ⟨[⟨"A", "A", 10, 2, "General"⟩], [⟨"c1", "Alice", "", "", 0, 0, 0⟩], []⟩
          [⟨"A", "A", 10, 2, "General", 2⟩] ⟨8, "$", true, true, true, 1, 5⟩
          (some "Alice") 10 0 "Cash" 7 = some s2
        ∧ s2.customers = (⟨[⟨"A", "A", 10, 2, "General"⟩],
            [⟨"c1", "Alice", "", "", 0, 0, 0⟩], []⟩ : DBState).customers.map fun d =>
            if d.id = (⟨"c1", "Alice", "", "", 0, 0, 0⟩ : Customer).id then
              { d with
                  total_spend := d.total_spend
                    + (posTotals [⟨"A", "A", 10, 2, "General", 2⟩] 10
                        (⟨8, "$", true, true, true, 1, 5⟩ : Config).taxRate 0).total,
                  loyalty_points := d.loyalty_points
                    + ((posTotals [⟨"A", "A", 10, 2, "General", 2⟩] 10
                        (⟨8, "$", true, true, true, 1, 5⟩ : Config).taxRate 0).total
                        * (⟨8, "$", true, true, true, 1, 5⟩ : Config).loyaltyRate).floor,
                  order_count := d.order_count + 1 }
            else d) :=
  ⟨rfl, rfl, by norm_num [findCustomerByName],
   by norm_num [posTotals, cartSubtotal],
   rat_floor_eval _ 19 (by norm_num [posTotals, cartSubtotal])
     (by norm_num [posTotals, cartSubtotal]),
   loyalty_points_increase_floor _ _ _ _ _ _ _ _ _ rfl rfl
     (by norm_num [findCustomerByName]) (by norm_num [posTotals, cartSubtotal])⟩

/-- Claim C9 counterexample: the claim says an add whose new quantity would
exceed the available stock is a no-op whenever inventory is tracked.  The
list-view Add handler has no stock comparison: with stock 1 and an existing
line of quantity 1 it produces quantity 2, changing the cart. -/
theorem list_add_exceeds_stock :
    cartAddList [⟨"A", "A", 10, 1, "General", 1⟩] ⟨"A", "A", 10, 1, "General"⟩
      = [⟨"A", "A", 10, 1, "General", 2⟩]
    ∧ ([⟨"A", "A", 10, 1, "General", 2⟩] : List CartItem)
        ≠ [⟨"A", "A", 10, 1, "General", 1⟩] := by
  constructor
  · norm_num [cartAddList]
  · norm_num

/-- Claim C9 as amended: adds keep at most one line per product id and create a
quantity-1 line when none exists (both views); for an existing line the
grid-view add increments by 1 only while the quantity is below the cap (the
product's stock when inventory is tracked, 999 otherwise) and is a no-op at the
cap, while the list-view add increments by 1 unconditionally. -/
theorem cart_add_characterization (cfg : Config) (cart : List CartItem) (p : Product)
    (hU : (cart.map CartItem.id).Nodup) :
    ((cartAddGrid cfg cart p).map CartItem.id).Nodup
    ∧ ((cartAddList cart p).map CartItem.id).Nodup
    ∧ (match cart.find? (fun item => item.id == p.id) with
       | none =>
           cartAddGrid cfg cart p = cart ++ [newCartLine p]
           ∧ cartAddList cart p = cart ++ [newCartLine p]
       | some it =>
           qtyOf (cartAddGrid cfg cart p) p.id
             = (if it.cartQuantity < (if cfg.enableInventory then p.inventory else 999)
                then it.cartQuantity + 1 else it.cartQuantity)
           ∧ qtyOf (cartAddList cart p) p.id = it.cartQuantity + 1) := by
  cases hfind : cart.find? (fun item => item.id == p.id) with
  | none =>
      have hany : (cart.any fun item => item.id == p.id) = false := by
        rw [any_eq_isSome_find?, hfind]
        rfl
      have hmem : p.id ∉ cart.map CartItem.id := by
        intro hm
        obtain ⟨item, hitem, hid⟩ := List.mem_map.mp hm
        have hno := List.find?_eq_none.mp hfind item hitem
        simp [hid] at hno
      have hgrid : cartAddGrid cfg cart p = cart ++ [newCartLine p] := by
        simp [cartAddGrid, hany]
      have hlist : cartAddList cart p = cart ++ [newCartLine p] := by
        simp [cartAddList, hany]
      have hnodup : ((cart ++ [newCartLine p]).map CartItem.id).Nodup := by
        rw [List.map_append, List.nodup_append]
        refine ⟨hU, by simp, ?_⟩
        intro a ha hb
        simp [newCartLine] at hb
        rw [hb] at ha
        exact hmem ha
      refine ⟨hgrid ▸ hnodup, hlist ▸ hnodup, hgrid, hlist⟩
  | some it =>
      have hit : it.id = p.id := by
        have := List.find?_some hfind
        simpa using this
      have hany : (cart.any fun item => item.id == p.id) = true := by
        rw [any_eq_isSome_find?, hfind]
        rfl
      have hgrid : cartAddGrid cfg cart p
          = cart.map fun item =>
              if item.id = p.id then
                (if item.cartQuantity < (if cfg.enableInventory then p.inventory else 999)
                 then { item with cartQuantity := item.cartQuantity + 1 } else item)
              else item := by
        simp [cartAddGrid, hany]
      have hlist2 : cartAddList cart p
          = cart.map fun item =>
              if item.id = p.id then { item with cartQuantity := item.cartQuantity + 1 }
              else item := by
        simp [cartAddList, hany]
      have hgid : ∀ item : CartItem,
          ((if item.id = p.id then
              (if item.cartQuantity < (if cfg.enableInventory then p.inventory else 999)
               then { item with cartQuantity := item.cartQuantity + 1 } else item)
            else item) : CartItem).id = item.id := by
        intro item
        simp only [apply_ite CartItem.id]
        simp [ite_self]
      have hlid : ∀ item : CartItem,
          ((if item.id = p.id then { item with cartQuantity := item.cartQuantity + 1 }
            else item) : CartItem).id = item.id := by
        intro item
        simp only [apply_ite CartItem.id]
        simp [ite_self]
      refine ⟨?_, ?_, ?_, ?_⟩
      · rw [hgrid]
        simpa [List.map_map, Function.comp_def, hgid] using hU
      · rw [hlist2]
        simpa [List.map_map, Function.comp_def, hlid] using hU
      · rw [hgrid]
        unfold qtyOf
        rw [List.find?_map]
        have hpredg : ((fun item : CartItem => item.id == p.id) ∘ fun item =>
              if item.id = p.id then
                (if item.cartQuantity < (if cfg.enableInventory then p.inventory else 999)
                 then { item with cartQuantity := item.cartQuantity + 1 } else item)
              else item)
            = fun item : CartItem => item.id == p.id := by
          funext a
          simp only [Function.comp_apply]
          rw [hgid a]
        rw [hpredg, hfind]
        simp [hit, apply_ite CartItem.cartQuantity]
      · rw [hlist2]
        unfold qtyOf
        rw [List.find?_map]
        have hpredl : ((fun item : CartItem => item.id == p.id) ∘ fun item =>
              if item.id = p.id then { item with cartQuantity := item.cartQuantity + 1 }
              else item)
            = fun item : CartItem => item.id == p.id := by
          funext a
          simp only [Function.comp_apply]
          rw [hlid a]
        rw [hpredl, hfind]
        simp [hit]

/-- Concrete instance: a one-line cart for product A (stock 5, quantity 1)
with inventory tracking on; both adds increment the line. -/
theorem cart_add_characterization_witness :
    (([⟨"A", "A", 10, 5, "General", 1⟩] : List CartItem).map CartItem.id).Nodup
    ∧ (((cartAddGrid ⟨8, "$", true, false, false, 1, 5⟩
          [⟨"A", "A", 10, 5, "General", 1⟩] ⟨"A", "A", 10, 5, "General"⟩).map
          CartItem.id).Nodup
      ∧ ((cartAddList [⟨"A", "A", 10, 5, "General", 1⟩]
          ⟨"A", "A", 10, 5, "General"⟩).map CartItem.id).Nodup
      ∧ (match ([⟨"A", "A", 10, 5, "General", 1⟩] : List CartItem).find?
            (fun item => item.id == (⟨"A", "A", 10, 5, "General"⟩ : Product).id) with
         | none =>
             cartAddGrid ⟨8, "$", true, false, false, 1, 5⟩
                 [⟨"A", "A", 10, 5, "General", 1⟩] ⟨"A", "A", 10, 5, "General"⟩
               = [⟨"A", "A", 10, 5, "General", 1⟩]
                   ++ [newCartLine ⟨"A", "A", 10, 5, "General"⟩]
             ∧ cartAddList [⟨"A", "A", 10, 5, "General", 1⟩]
                 ⟨"A", "A", 10, 5, "General"⟩
               = [⟨"A", "A", 10, 5, "General", 1⟩]
                   ++ [newCartLine ⟨"A", "A", 10, 5, "General"⟩]
         | some it =>
             qtyOf (cartAddGrid ⟨8, "$", true, false, false, 1, 5⟩
                 [⟨"A", "A", 10, 5, "General", 1⟩] ⟨"A", "A", 10, 5, "General"⟩)
                 (⟨"A", "A", 10, 5, "General"⟩ : Product).id
               = (if it.cartQuantity
                    < (if (⟨8, "$", true, false, false, 1, 5⟩ : Config).enableInventory
                       then (⟨"A", "A", 10, 5, "General"⟩ : Product).inventory else 999)
                  then it.cartQuantity + 1 else it.cartQuantity)
             ∧ qtyOf (cartAddList [⟨"A", "A", 10, 5, "General", 1⟩]
                 ⟨"A", "A", 10, 5, "General"⟩)
                 (⟨"A", "A", 10, 5, "General"⟩ : Product).id
               = it.cartQuantity + 1)) :=
  ⟨by simp, cart_add_characterization _ _ _ (by simp)⟩

/-- Claim C10 counterexample: the claim says the three aggregates change only
through committed checkouts and are never decremented.  Opening the customer
edit form snapshots the record; a checkout then raises Alice to totalSpend
19.44, 19 points, 1 order; saving the still-open form writes the snapshot back
and resets all three aggregates to 0 - a non-checkout operation decrementing
them. -/
theorem stale_profile_edit_decrements_stats :
    ((pos_complete
        ⟨[⟨"A", "A", 10, 2, "General"⟩], [⟨"c1", "Alice", "", "", 0, 0, 0⟩], []⟩
        [⟨"A", "A", 10, 2, "General", 2⟩] ⟨8, "$", true, true, true, 1, 5⟩
        (some "Alice") 10 0 "Cash" 7).map
      (fun s1 =>
        (s1.customers.map fun c => (c.total_spend, c.loyalty_points, c.order_count),
         (customersSave s1 ⟨"c1", "Alice", "", "", 0, 0, 0⟩ "Alice" "" "").customers.map
           fun c => (c.total_spend, c.loyalty_points, c.order_count))))
      = some ([((19.44 : Rat), (19 : Int), (1 : Int))],
              [((0 : Rat), (0 : Int), (0 : Int))]) := by
  have hfl : ((486 / 25 : Rat)).floor = 19 :=
    rat_floor_eval _ 19 (by norm_num) (by norm_num)
  norm_num [pos_complete, selectedCustomer, findCustomerByName, runCommits,
    checkoutCommits, invCommits, CustomerDB.update_stats, CustomerDB.update,
    customersSave, calculate_loyalty_points, pyInt, posTotals, cartSubtotal,
    ProductDB.update_inventory, TransactionDB.add, mkTxn, mkTxnItems, hfl]

/-- Claim C10 as amended: the profile edit save writes the aggregate fields
from the form-open snapshot, so whenever the snapshot still agrees with the
stored record (no checkout committed in between) the save leaves every
customer's loyaltyPoints, totalSpend and orderCount unchanged. -/
theorem fresh_profile_edit_preserves_stats (s : DBState) (snap : Customer)
    (nm : String) (em : String) (ph : String)
    (hfresh : ∀ d ∈ s.customers, d.id = snap.id →
        d.loyalty_points = snap.loyalty_points ∧ d.total_spend = snap.total_spend
          ∧ d.order_count = snap.order_count) :
    (customersSave s snap nm em ph).customers.map
        (fun c => (c.loyalty_points, c.total_spend, c.order_count))
      = s.customers.map fun c => (c.loyalty_points, c.total_spend, c.order_count) := by
  unfold customersSave CustomerDB.update
  simp only [List.map_map]
  apply List.map_congr_left
  intro d hd
  by_cases h : d.id = snap.id
  · obtain ⟨h1, h2, h3⟩ := hfresh d hd h
    simp [Function.comp_def, h, h1, h2, h3]
  · simp [Function.comp_def, h]

/-- Concrete instance: editing name, email and phone with a fresh snapshot
preserves the aggregates (5 points, 7.5 spend, 2 orders). -/
theorem fresh_profile_edit_preserves_stats_witness :
    (∀ d ∈ ([⟨"c1", "Alice", "a", "p", 5, 7.5, 2⟩] : List Customer),
        d.id = (⟨"c1", "Alice", "old", "", 5, 7.5, 2⟩ : Customer).id →
          d.loyalty_points
              = (⟨"c1", "Alice", "old", "", 5, 7.5, 2⟩ : Customer).loyalty_points
          ∧ d.total_spend
              = (⟨"c1", "Alice", "old", "", 5, 7.5, 2⟩ : Customer).total_spend
          ∧ d.order_count
              = (⟨"c1", "Alice", "old", "", 5, 7.5, 2⟩ : Customer).order_count)
    ∧ ((customersSave ⟨[], [⟨"c1", "Alice", "a", "p", 5, 7.5, 2⟩], []⟩
          ⟨"c1", "Alice", "old", "", 5, 7.5, 2⟩ "Alicia" "new" "123").customers.map
        (fun c => (c.loyalty_points, c.total_spend, c.order_count))
      = (⟨[], [⟨"c1", "Alice", "a", "p", 5, 7.5, 2⟩], []⟩ : DBState).customers.map
          fun c => (c.loyalty_points, c.total_spend, c.order_count)) :=
  ⟨by norm_num, fresh_profile_edit_preserves_stats _ _ _ _ _ (by norm_num)⟩
